import Mathlib

/-!
Shallow embedding of the noise engine of `src/include/re_noise.h` (REMath),
together with proofs settling the frozen claims about it.

Modelling conventions:
* C `f32`/`f64` values are modelled as exact rationals (`ℚ`); the floating
  point rounding of the C code is idealized away, as is integer overflow of
  `i32`/`i64` lattice indices (modelled as unbounded `ℤ`).
* `(RE_u8)x` truncation and `x & 255` masking of a two's-complement `i32`
  both compute the least non-negative residue mod 256, embedded as
  `(x.emod 256).toNat`.
* The C cast `(RE_i32)x` of a float truncates toward zero, embedded as
  `intCastTrunc`.
* Tables are embedded as `List` literals copied from the source; reads use
  `List.getD` (the in-bounds discipline itself is proved separately with
  `List.get?`-based checked variants).
-/

set_option maxRecDepth 40000

/-! ### Constant tables (from `re_noise.h`) -/

def RE_NOISE_PERM : List Nat := [
  151, 160, 137, 91, 90, 15, 131, 13, 201, 95, 96, 53, 194, 233, 7, 225,
  140, 36, 103, 30, 69, 142, 8, 99, 37, 240, 21, 10, 23, 190, 6, 148,
  247, 120, 234, 75, 0, 26, 197, 62, 94, 252, 219, 203, 117, 35, 11, 32,
  57, 177, 33, 88, 237, 149, 56, 87, 174, 20, 125, 136, 171, 168, 68, 175,
  74, 165, 71, 134, 139, 48, 27, 166, 77, 146, 158, 231, 83, 111, 229, 122,
  60, 211, 133, 230, 220, 105, 92, 41, 55, 46, 245, 40, 244, 102, 143, 54,
  65, 25, 63, 161, 1, 216, 80, 73, 209, 76, 132, 187, 208, 89, 18, 169,
  200, 196, 135, 130, 116, 188, 159, 86, 164, 100, 109, 198, 173, 186, 3, 64,
  52, 217, 226, 250, 124, 123, 5, 202, 38, 147, 118, 126, 255, 82, 85, 212,
  207, 206, 59, 227, 47, 16, 58, 17, 182, 189, 28, 42, 223, 183, 170, 213,
  119, 248, 152, 2, 44, 154, 163, 70, 221, 153, 101, 155, 167, 43, 172, 9,
  129, 22, 39, 253, 19, 98, 108, 110, 79, 113, 224, 232, 178, 185, 112, 104,
  218, 246, 97, 228, 251, 34, 242, 193, 238, 210, 144, 12, 191, 179, 162, 241,
  81, 51, 145, 235, 249, 14, 239, 107, 49, 192, 214, 31, 181, 199, 106, 157,
  184, 84, 204, 176, 115, 121, 50, 45, 127, 4, 150, 254, 138, 236, 205, 93,
  222, 114, 67, 29, 24, 72, 243, 141, 128, 195, 78, 66, 215, 61, 156, 180]

def RE_NOISE_PERM_256 : List Nat := [
  151, 160, 137, 91, 90, 15, 131, 13, 201, 95, 96, 53, 194, 233, 7, 225,
  140, 36, 103, 30, 69, 142, 8, 99, 37, 240, 21, 10, 23, 190, 6, 148,
  247, 120, 234, 75, 0, 26, 197, 62, 94, 252, 219, 203, 117, 35, 11, 32,
  57, 177, 33, 88, 237, 149, 56, 87, 174, 20, 125, 136, 171, 168, 68, 175,
  74, 165, 71, 134, 139, 48, 27, 166, 77, 146, 158, 231, 83, 111, 229, 122,
  60, 211, 133, 230, 220, 105, 92, 41, 55, 46, 245, 40, 244, 102, 143, 54,
  65, 25, 63, 161, 1, 216, 80, 73, 209, 76, 132, 187, 208, 89, 18, 169,
  200, 196, 135, 130, 116, 188, 159, 86, 164, 100, 109, 198, 173, 186, 3, 64,
  52, 217, 226, 250, 124, 123, 5, 202, 38, 147, 118, 126, 255, 82, 85, 212,
  207, 206, 59, 227, 47, 16, 58, 17, 182, 189, 28, 42, 223, 183, 170, 213,
  119, 248, 152, 2, 44, 154, 163, 70, 221, 153, 101, 155, 167, 43, 172, 9,
  129, 22, 39, 253, 19, 98, 108, 110, 79, 113, 224, 232, 178, 185, 112, 104,
  218, 246, 97, 228, 251, 34, 242, 193, 238, 210, 144, 12, 191, 179, 162, 241,
  81, 51, 145, 235, 249, 14, 239, 107, 49, 192, 214, 31, 181, 199, 106, 157,
  184, 84, 204, 176, 115, 121, 50, 45, 127, 4, 150, 254, 138, 236, 205, 93,
  222, 114, 67, 29, 24, 72, 243, 141, 128, 195, 78, 66, 215, 61, 156, 180,
  151, 160, 137, 91, 90, 15, 131, 13, 201, 95, 96, 53, 194, 233, 7, 225,
  140, 36, 103, 30, 69, 142, 8, 99, 37, 240, 21, 10, 23, 190, 6, 148,
  247, 120, 234, 75, 0, 26, 197, 62, 94, 252, 219, 203, 117, 35, 11, 32,
  57, 177, 33, 88, 237, 149, 56, 87, 174, 20, 125, 136, 171, 168, 68, 175,
  74, 165, 71, 134, 139, 48, 27, 166, 77, 146, 158, 231, 83, 111, 229, 122,
  60, 211, 133, 230, 220, 105, 92, 41, 55, 46, 245, 40, 244, 102, 143, 54,
  65, 25, 63, 161, 1, 216, 80, 73, 209, 76, 132, 187, 208, 89, 18, 169,
  200, 196, 135, 130, 116, 188, 159, 86, 164, 100, 109, 198, 173, 186, 3, 64,
  52, 217, 226, 250, 124, 123, 5, 202, 38, 147, 118, 126, 255, 82, 85, 212,
  207, 206, 59, 227, 47, 16, 58, 17, 182, 189, 28, 42, 223, 183, 170, 213,
  119, 248, 152, 2, 44, 154, 163, 70, 221, 153, 101, 155, 167, 43, 172, 9,
  129, 22, 39, 253, 19, 98, 108, 110, 79, 113, 224, 232, 178, 185, 112, 104,
  218, 246, 97, 228, 251, 34, 242, 193, 238, 210, 144, 12, 191, 179, 162, 241,
  81, 51, 145, 235, 249, 14, 239, 107, 49, 192, 214, 31, 181, 199, 106, 157,
  184, 84, 204, 176, 115, 121, 50, 45, 127, 4, 150, 254, 138, 236, 205, 93,
  222, 114, 67, 29, 24, 72, 243, 141, 128, 195, 78, 66, 215, 61, 156, 180]

def RE_NOISE_GRAD2 : List (Int × Int) := [(1, 1), (-1, 1), (1, -1), (-1, -1), (1, 0), (-1, 0), (0, 1), (0, -1)]

def RE_NOISE_GRAD3 : List (Int × Int × Int) := [
  (1, 1, 0),
  (-1, 1, 0),
  (1, -1, 0),
  (-1, -1, 0),
  (1, 0, 1),
  (-1, 0, 1),
  (1, 0, -1),
  (-1, 0, -1),
  (0, 1, 1),
  (0, -1, 1),
  (0, 1, -1),
  (0, -1, -1)]

/-- `OS3D_SCALE_F32` from `re_constants.h` (`32.0f`). -/
def OS3D_SCALE_F32 : ℚ := 32

/-- `OS3D_SCALE_F64` from `re_constants.h` (`32.0`). -/
def OS3D_SCALE_F64 : ℚ := 32

/-- `OS2D_SCALE_F32` from `re_constants.h` (`1.0f / 0.010016341f`). -/
def OS2D_SCALE_F32 : ℚ := 1 / 0.010016341

/-! ### Hash core -/

/-- Least non-negative residue mod 256: the value of both `(RE_u8)x` and
`x & 255` on a two's-complement `RE_i32`. -/
def u8ofInt (x : ℤ) : ℕ := (x.emod 256).toNat

/-- Read of `RE_NOISE_PERM[i]` (all reads in the source are pre-masked). -/
def permAt (i : ℕ) : ℕ := RE_NOISE_PERM.getD i 0

/-- Read of `RE_NOISE_PERM_256[i]` (the 512-entry mode-1 table). -/
def perm256At (i : ℕ) : ℕ := RE_NOISE_PERM_256.getD i 0

/-- `RE_NOISE_HASH`: `RE_NOISE_PERM[(RE_u8)x]`. -/
def RE_NOISE_HASH (x : ℤ) : ℕ := permAt (u8ofInt x)

/-- `RE_NOISE_HASH2`: `RE_NOISE_PERM[(RE_NOISE_HASH(x) + y) & 255]`. -/
def RE_NOISE_HASH2 (x y : ℤ) : ℕ := permAt (u8ofInt ((RE_NOISE_HASH x : ℤ) + y))

/-- `RE_NOISE_HASH3`: `RE_NOISE_PERM[(RE_NOISE_HASH2(x,y) + z) & 255]`. -/
def RE_NOISE_HASH3 (x y z : ℤ) : ℕ :=
permAt (u8ofInt ((RE_NOISE_HASH2 x y : ℤ) + z))

/-- Mode-1 `RE_HASH3D`: the same cascade over the 512-entry table
`RE_NOISE_PERM_256`. -/
def RE_HASH3D (x y z : ℤ) : ℕ :=
let a := perm256At (u8ofInt x)
let b := perm256At (u8ofInt ((a : ℤ) + y))
let c := perm256At (u8ofInt ((b : ℤ) + z))
c

/-! ### Lattice / fade primitives -/

/-- C cast of a float to a signed integer: truncation toward zero. -/
def intCastTrunc (x : ℚ) : ℤ := if 0 ≤ x then ⌊x⌋ else -⌊-x⌋

/-- `RE_FASTFLOOR_f32`: `xi = (RE_i32)x; return (x < xi) ? xi-1 : xi`. -/
def RE_FASTFLOOR_f32 (x : ℚ) : ℤ :=
let xi := intCastTrunc x
if x < (xi : ℚ) then xi - 1 else xi

/-- `RE_FASTFLOOR_f64`: same algorithm at `f64`/`i64` width. -/
def RE_FASTFLOOR_f64 (x : ℚ) : ℤ :=
let xi := intCastTrunc x
if x < (xi : ℚ) then xi - 1 else xi

/-- `RE_NOISE_FADE_f32`: `t*t*t*(t*(t*6-15)+10)`. -/
def RE_NOISE_FADE_f32 (t : ℚ) : ℚ := t * t * t * (t * (t * 6 - 15) + 10)

/-- `RE_NOISE_FADE_f64`: same polynomial at `f64` width. -/
def RE_NOISE_FADE_f64 (t : ℚ) : ℚ := t * t * t * (t * (t * 6 - 15) + 10)

/-- `RE_NOISE_LERP_f32`: `a + t*(b-a)`. -/
def RE_NOISE_LERP_f32 (a b t : ℚ) : ℚ := a + t * (b - a)

/-- `RE_NOISE_LERP_f64`. -/
def RE_NOISE_LERP_f64 (a b t : ℚ) : ℚ := a + t * (b - a)

/-- `RE_FABS_f32` (bit-level sign clear): absolute value. -/
def RE_FABS_f32 (x : ℚ) : ℚ := |x|

/-! ### Fast floor is the mathematical floor -/

lemma intCastTrunc_nonneg_eq_floor {x : ℚ} (h : 0 ≤ x) : intCastTrunc x = ⌊x⌋ := by
  simp [intCastTrunc, h]

lemma RE_FASTFLOOR_f32_eq_floor (x : ℚ) : RE_FASTFLOOR_f32 x = ⌊x⌋ := by
  unfold RE_FASTFLOOR_f32 intCastTrunc
  by_cases h0 : 0 ≤ x
  · rw [if_pos h0, if_neg (not_lt.mpr (Int.floor_le x))]
  · rw [if_neg h0]
    by_cases h1 : x < ((-⌊-x⌋ : ℤ) : ℚ)
    · rw [if_pos h1]
      symm
      rw [Int.floor_eq_iff]
      constructor
      · have := Int.lt_floor_add_one (-x)
        push_cast
        linarith
      · push_cast
        push_cast at h1
        linarith
    · rw [if_neg h1]
      have hle : x ≤ ((-⌊-x⌋ : ℤ) : ℚ) := by
        have := Int.floor_le (-x)
        push_cast
        linarith
      have hx : x = ((-⌊-x⌋ : ℤ) : ℚ) := le_antisymm hle (not_lt.mp h1)
      symm
      rw [Int.floor_eq_iff]
      refine ⟨hx.ge, ?_⟩
      push_cast
      push_cast at hle
      linarith

lemma RE_FASTFLOOR_f64_eq_floor (x : ℚ) : RE_FASTFLOOR_f64 x = ⌊x⌋ :=
  RE_FASTFLOOR_f32_eq_floor x

/-- C3: for every (exactly modelled) input `x`, both `RE_FASTFLOOR_f32` and
`RE_FASTFLOOR_f64` satisfy `fastfloor(x) <= x < fastfloor(x) + 1`; that is,
they compute the mathematical floor, correct for negative `x` as well, not
C-style truncation. -/
theorem claim_C3_fastfloor_contract (x : ℚ) :
    ((RE_FASTFLOOR_f32 x : ℚ) ≤ x ∧ x < (RE_FASTFLOOR_f32 x : ℚ) + 1) ∧
    ((RE_FASTFLOOR_f64 x : ℚ) ≤ x ∧ x < (RE_FASTFLOOR_f64 x : ℚ) + 1) := by
  rw [RE_FASTFLOOR_f32_eq_floor, RE_FASTFLOOR_f64_eq_floor]
  exact ⟨⟨Int.floor_le x, Int.lt_floor_add_one x⟩,
         ⟨Int.floor_le x, Int.lt_floor_add_one x⟩⟩

/-! ### The fade polynomial -/

open Polynomial in
/-- The quintic `6 X^5 - 15 X^4 + 10 X^3` as a formal polynomial over `ℚ`. -/
noncomputable def fadePoly : Polynomial ℚ :=
Polynomial.C 6 * Polynomial.X ^ 5 - Polynomial.C 15 * Polynomial.X ^ 4 +
  Polynomial.C 10 * Polynomial.X ^ 3

/-- C7: the fade functions equal the quintic `6t^5 - 15t^4 + 10t^3`
everywhere; `fade 0 = 0`, `fade 1 = 1`; the first and second formal
derivatives of that polynomial vanish at `0` and `1`; and `fade (1/2)`
lies within `[0.45, 0.55]`. -/
theorem claim_C7_fade_quintic :
    (∀ t : ℚ, RE_NOISE_FADE_f32 t = 6 * t ^ 5 - 15 * t ^ 4 + 10 * t ^ 3 ∧
      RE_NOISE_FADE_f64 t = 6 * t ^ 5 - 15 * t ^ 4 + 10 * t ^ 3 ∧
      RE_NOISE_FADE_f32 t = fadePoly.eval t) ∧
    RE_NOISE_FADE_f32 0 = 0 ∧ RE_NOISE_FADE_f32 1 = 1 ∧
    (Polynomial.derivative fadePoly).eval 0 = 0 ∧
    (Polynomial.derivative fadePoly).eval 1 = 0 ∧
    (Polynomial.derivative (Polynomial.derivative fadePoly)).eval 0 = 0 ∧
    (Polynomial.derivative (Polynomial.derivative fadePoly)).eval 1 = 0 ∧
    0.45 ≤ RE_NOISE_FADE_f32 (1/2) ∧ RE_NOISE_FADE_f32 (1/2) ≤ 0.55 := by
  refine ⟨fun t => ⟨by unfold RE_NOISE_FADE_f32; ring,
                   by unfold RE_NOISE_FADE_f64; ring, ?_⟩,
          ?_, ?_, ?_, ?_, ?_, ?_, ?_, ?_⟩
  · simp [fadePoly, RE_NOISE_FADE_f32]
    ring
  · norm_num [RE_NOISE_FADE_f32]
  · norm_num [RE_NOISE_FADE_f32]
  all_goals
    norm_num [fadePoly, Polynomial.derivative_C_mul, Polynomial.derivative_X_pow,
      RE_NOISE_FADE_f32]

/-! ### Hash bounds and the C6 hash formula -/

lemma u8ofInt_lt (x : ℤ) : u8ofInt x < 256 := by
  unfold u8ofInt
  have h1 : 0 ≤ x.emod 256 := Int.emod_nonneg x (by norm_num)
  have h2 : x.emod 256 < 256 := Int.emod_lt_of_pos x (by norm_num)
  omega

lemma permAt_le (i : ℕ) : permAt i ≤ 255 := by
  have hmem : ∀ a ∈ RE_NOISE_PERM, a ≤ 255 := by decide
  unfold permAt
  rw [List.getD_eq_getElem?_getD]
  cases h2 : RE_NOISE_PERM[i]? with
  | none => simp
  | some v =>
    simp only [Option.getD_some]
    exact hmem v (List.getElem?_mem h2)

lemma RE_NOISE_HASH3_le (x y z : ℤ) : RE_NOISE_HASH3 x y z ≤ 255 := permAt_le _

lemma perm256_eq_append : RE_NOISE_PERM_256 = RE_NOISE_PERM ++ RE_NOISE_PERM := by
  decide

lemma perm256At_eq_permAt {i : ℕ} (h : i < 256) : perm256At i = permAt i := by
  unfold perm256At permAt
  rw [perm256_eq_append, List.getD_append]
  have : RE_NOISE_PERM.length = 256 := by decide
  omega

/-- C6: for all `i32` inputs, including negative ones, the table-based 3D
hash equals `PERM[(PERM[(PERM[x&255]+y)&255]+z)&255]` over the single fixed
256-entry table `RE_NOISE_PERM`, which is a permutation of `0..255`; this
holds both for `RE_NOISE_HASH3` and for the mode-1 `RE_HASH3D` (whose
512-entry table is two copies of the same permutation), and the masking
`(x.emod 256).toNat` that embeds `& 255` / `(RE_u8)` truncation always
yields an in-range non-negative index. -/
theorem claim_C6_table_hash_formula (x y z : ℤ) :
    RE_NOISE_HASH3 x y z =
      permAt (u8ofInt ((permAt (u8ofInt ((permAt (u8ofInt x) : ℤ) + y)) : ℤ) + z)) ∧
    RE_HASH3D x y z = RE_NOISE_HASH3 x y z ∧
    List.Perm RE_NOISE_PERM (List.range 256) ∧
    u8ofInt x < 256 := by
  refine ⟨rfl, ?_, by decide, u8ofInt_lt x⟩
  simp only [RE_HASH3D, RE_NOISE_HASH3, RE_NOISE_HASH2, RE_NOISE_HASH]
  rw [perm256At_eq_permAt (u8ofInt_lt x),
      perm256At_eq_permAt (u8ofInt_lt _),
      perm256At_eq_permAt (u8ofInt_lt _)]

/-! ### Value noise -/

/-- `RE_NOISE_VALUE_FROM_HASH_f32`: `h / 127.5 - 1.0`. -/
def RE_NOISE_VALUE_FROM_HASH_f32 (h : ℕ) : ℚ := (h : ℚ) / 127.5 - 1

/-- `RE_NOISE_VALUE3_f32`: 3D value noise (hash each of the 8 cube corners
to a scalar in `[-1,1]`, trilinear blend with faded weights). -/
def RE_NOISE_VALUE3_f32 (x y z : ℚ) : ℚ :=
let X := RE_FASTFLOOR_f32 x
let Y := RE_FASTFLOOR_f32 y
let Z := RE_FASTFLOOR_f32 z
let fx := x - (X : ℚ)
let fy := y - (Y : ℚ)
let fz := z - (Z : ℚ)
let u := RE_NOISE_FADE_f32 fx
let v := RE_NOISE_FADE_f32 fy
let w := RE_NOISE_FADE_f32 fz
let c000 := RE_NOISE_VALUE_FROM_HASH_f32 (RE_NOISE_HASH3 X Y Z)
let c100 := RE_NOISE_VALUE_FROM_HASH_f32 (RE_NOISE_HASH3 (X+1) Y Z)
let c010 := RE_NOISE_VALUE_FROM_HASH_f32 (RE_NOISE_HASH3 X (Y+1) Z)
let c110 := RE_NOISE_VALUE_FROM_HASH_f32 (RE_NOISE_HASH3 (X+1) (Y+1) Z)
let c001 := RE_NOISE_VALUE_FROM_HASH_f32 (RE_NOISE_HASH3 X Y (Z+1))
let c101 := RE_NOISE_VALUE_FROM_HASH_f32 (RE_NOISE_HASH3 (X+1) Y (Z+1))
let c011 := RE_NOISE_VALUE_FROM_HASH_f32 (RE_NOISE_HASH3 X (Y+1) (Z+1))
let c111 := RE_NOISE_VALUE_FROM_HASH_f32 (RE_NOISE_HASH3 (X+1) (Y+1) (Z+1))
let i1 := RE_NOISE_LERP_f32 (RE_NOISE_LERP_f32 c000 c100 u)
                            (RE_NOISE_LERP_f32 c010 c110 u) v
let i2 := RE_NOISE_LERP_f32 (RE_NOISE_LERP_f32 c001 c101 u)
                            (RE_NOISE_LERP_f32 c011 c111 u) v
RE_NOISE_LERP_f32 i1 i2 w

/-! ### Range lemmas for C4 -/

lemma vfh_mem (h : ℕ) (hh : h ≤ 255) :
    -1 ≤ RE_NOISE_VALUE_FROM_HASH_f32 h ∧ RE_NOISE_VALUE_FROM_HASH_f32 h ≤ 1 := by
  unfold RE_NOISE_VALUE_FROM_HASH_f32
  have h255 : (h : ℚ) ≤ 255 := by exact_mod_cast hh
  constructor
  · have h0 : (0 : ℚ) ≤ (h : ℚ) / 127.5 := by positivity
    linarith
  · have h2 : (h : ℚ) / 127.5 ≤ 2 := by
      rw [div_le_iff (by norm_num : (0 : ℚ) < 127.5)]
      linarith
    linarith

lemma fract_mem (x : ℚ) :
    0 ≤ x - (RE_FASTFLOOR_f32 x : ℚ) ∧ x - (RE_FASTFLOOR_f32 x : ℚ) ≤ 1 := by
  rw [RE_FASTFLOOR_f32_eq_floor]
  have h1 := Int.floor_le x
  have h2 := Int.lt_floor_add_one x
  constructor <;> linarith

lemma fade_mem {t : ℚ} (h : 0 ≤ t ∧ t ≤ 1) :
    0 ≤ RE_NOISE_FADE_f32 t ∧ RE_NOISE_FADE_f32 t ≤ 1 := by
  obtain ⟨h0, h1⟩ := h
  unfold RE_NOISE_FADE_f32
  constructor
  · nlinarith [sq_nonneg (t - 5/4), mul_nonneg (mul_nonneg h0 h0) h0]
  · nlinarith [mul_nonneg (mul_nonneg (sub_nonneg.2 h1) (sub_nonneg.2 h1)) (sub_nonneg.2 h1),
      sq_nonneg t, mul_nonneg h0 h0]

lemma lerp_mem {a b t : ℚ} (ha : -1 ≤ a ∧ a ≤ 1) (hb : -1 ≤ b ∧ b ≤ 1)
    (ht : 0 ≤ t ∧ t ≤ 1) :
    -1 ≤ RE_NOISE_LERP_f32 a b t ∧ RE_NOISE_LERP_f32 a b t ≤ 1 := by
  obtain ⟨ha1, ha2⟩ := ha
  obtain ⟨hb1, hb2⟩ := hb
  obtain ⟨ht1, ht2⟩ := ht
  unfold RE_NOISE_LERP_f32
  constructor <;> nlinarith

/-- C4: for every (exactly modelled) input, 3D value noise lies in `[-1, 1]`
inclusive: every corner scalar `hash/127.5 - 1` is in `[-1,1]` and the
nested lerps with fade-curved weights cannot leave that interval. -/
theorem claim_C4_value3_range (x y z : ℚ) :
    -1 ≤ RE_NOISE_VALUE3_f32 x y z ∧ RE_NOISE_VALUE3_f32 x y z ≤ 1 := by
  have hu := fade_mem (fract_mem x)
  have hv := fade_mem (fract_mem y)
  have hw := fade_mem (fract_mem z)
  have hc : ∀ a b c : ℤ, -1 ≤ RE_NOISE_VALUE_FROM_HASH_f32 (RE_NOISE_HASH3 a b c) ∧
      RE_NOISE_VALUE_FROM_HASH_f32 (RE_NOISE_HASH3 a b c) ≤ 1 :=
    fun a b c => vfh_mem _ (RE_NOISE_HASH3_le a b c)
  simp only [RE_NOISE_VALUE3_f32]
  exact lerp_mem
    (lerp_mem (lerp_mem (hc _ _ _) (hc _ _ _) hu) (lerp_mem (hc _ _ _) (hc _ _ _) hu) hv)
    (lerp_mem (lerp_mem (hc _ _ _) (hc _ _ _) hu) (lerp_mem (hc _ _ _) (hc _ _ _) hu) hv)
    hw

/-! ### Turbulence -/

/-- Loop body of `RE_NOISE_VALUE3_TURBULENCE_f32`
(`sum += fabs(value3(x,y,z))*amp; x,y,z *= lac; amp *= gain`). -/
def turbLoop (octaves : ℕ) (x y z lac gain sum amp : ℚ) : ℚ :=
match octaves with
| 0 => sum
| n + 1 =>
  turbLoop n (x * lac) (y * lac) (z * lac) lac gain
    (sum + RE_FABS_f32 (RE_NOISE_VALUE3_f32 x y z) * amp) (amp * gain)

/-- `RE_NOISE_VALUE3_TURBULENCE_f32` (octave count modelled as `ℕ`;
a non-positive C `int` count runs zero iterations). -/
def RE_NOISE_VALUE3_TURBULENCE_f32 (x y z : ℚ) (octaves : ℕ) (lac gain : ℚ) : ℚ :=
turbLoop octaves x y z lac gain 0 1

lemma turbLoop_nonneg (octaves : ℕ) :
    ∀ x y z lac gain sum amp : ℚ, 0 ≤ gain → 0 ≤ sum → 0 ≤ amp →
      0 ≤ turbLoop octaves x y z lac gain sum amp := by
  induction octaves with
  | zero => intro x y z lac gain sum amp _ hs _; exact hs
  | succ n ih =>
    intro x y z lac gain sum amp hg hs ha
    exact ih _ _ _ _ _ _ _ hg
      (add_nonneg hs (mul_nonneg (abs_nonneg _) ha)) (mul_nonneg ha hg)

lemma value3_at_half : RE_NOISE_VALUE3_f32 (1/2) (1/2) (1/2) = -3/34 := by
  have hf : RE_FASTFLOOR_f32 (1/2 : ℚ) = 0 := by
    rw [RE_FASTFLOOR_f32_eq_floor]
    norm_num
  have h000 : RE_NOISE_HASH3 0 0 0 = 36 := by decide
  have h100 : RE_NOISE_HASH3 1 0 0 = 86 := by decide
  have h010 : RE_NOISE_HASH3 0 1 0 = 108 := by decide
  have h110 : RE_NOISE_HASH3 1 1 0 = 128 := by decide
  have h001 : RE_NOISE_HASH3 0 0 1 = 103 := by decide
  have h101 : RE_NOISE_HASH3 1 0 1 = 164 := by decide
  have h011 : RE_NOISE_HASH3 0 1 1 = 110 := by decide
  have h111 : RE_NOISE_HASH3 1 1 1 = 195 := by decide
  rw [RE_NOISE_VALUE3_f32, hf]
  norm_num [h000, h100, h010, h110, h001, h101, h011, h111,
    RE_NOISE_VALUE_FROM_HASH_f32, RE_NOISE_FADE_f32, RE_NOISE_LERP_f32]

/-- C5 counterexample: with a negative gain the amplitude of the second
octave is negative and turbulence drops below zero, refuting "returns a
value >= 0 for every gain": at `(0.5, 0.5, 0.5)` with `octaves = 2`,
`lacunarity = 1`, `gain = -2` the result is `-3/34 < 0`. -/
theorem claim_C5_counterexample :
    RE_NOISE_VALUE3_TURBULENCE_f32 (1/2) (1/2) (1/2) 2 1 (-2) < 0 := by
  have habs : RE_FABS_f32 (RE_NOISE_VALUE3_f32 (1/2) (1/2) (1/2)) = 3/34 := by
    rw [value3_at_half, RE_FABS_f32]
    norm_num
  rw [RE_NOISE_VALUE3_TURBULENCE_f32]
  norm_num [turbLoop, mul_one, habs]

/-- C5 (amended): `RE_NOISE_VALUE3_TURBULENCE_f32` is non-negative for all
coordinates, every octave count and every lacunarity, provided the gain is
non-negative (the absolute-value accumulation then keeps every octave's
amplitude, and hence the sum, non-negative); a negative gain can make it
negative. -/
theorem claim_C5_amended_turbulence_nonneg (x y z : ℚ) (octaves : ℕ)
    (lac gain : ℚ) (hg : 0 ≤ gain) :
    0 ≤ RE_NOISE_VALUE3_TURBULENCE_f32 x y z octaves lac gain :=
  turbLoop_nonneg octaves x y z lac gain 0 1 hg le_rfl zero_le_one

/-- C5 witness: the amended theorem applied at the test suite's own call
`turbulence(1,1,1, octaves=4, lacunarity=2, gain=0.5)`. -/
theorem claim_C5_witness :
    (0 : ℚ) ≤ 1/2 ∧ 0 ≤ RE_NOISE_VALUE3_TURBULENCE_f32 1 1 1 4 2 (1/2) :=
  ⟨by norm_num, claim_C5_amended_turbulence_nonneg 1 1 1 4 2 (1/2) (by norm_num)⟩

/-! ### Classic Perlin 3D -/

/-- Read of `RE_NOISE_GRAD3[i]` (`G3(h)` is `RE_NOISE_GRAD3[h % 12]`). -/
def grad3At (i : ℕ) : ℤ × ℤ × ℤ := RE_NOISE_GRAD3.getD i (0, 0, 0)

/-- `RE_NOISE_PERLIN3_f32_scalar` exactly as in the source: four hash codes
`AA`, `BA`, `AB`, `BB` select four gradients, which are dotted against both
the `z`-level and the `z+1`-level corner offsets. -/
def RE_NOISE_PERLIN3_f32_scalar (x y z : ℚ) : ℚ :=
let X := (RE_FASTFLOOR_f32 x).emod 256
let Y := (RE_FASTFLOOR_f32 y).emod 256
let Z := (RE_FASTFLOOR_f32 z).emod 256
let xf := x - (RE_FASTFLOOR_f32 x : ℚ)
let yf := y - (RE_FASTFLOOR_f32 y : ℚ)
let zf := z - (RE_FASTFLOOR_f32 z : ℚ)
let u := RE_NOISE_FADE_f32 xf
let v := RE_NOISE_FADE_f32 yf
let w := RE_NOISE_FADE_f32 zf
let A := RE_NOISE_HASH2 X Y
let AA := RE_NOISE_HASH ((A : ℤ) + Z)
let AB := RE_NOISE_HASH ((A : ℤ) + Z + 1)
let B := RE_NOISE_HASH2 (X + 1) Y
let BA := RE_NOISE_HASH ((B : ℤ) + Z)
let BB := RE_NOISE_HASH ((B : ℤ) + Z + 1)
let gAA := grad3At (AA % 12)
let gBA := grad3At (BA % 12)
let gAB := grad3At (AB % 12)
let gBB := grad3At (BB % 12)
let dotAA := (gAA.1 : ℚ) * xf + (gAA.2.1 : ℚ) * yf + (gAA.2.2 : ℚ) * zf
let dotBA := (gBA.1 : ℚ) * (xf-1) + (gBA.2.1 : ℚ) * yf + (gBA.2.2 : ℚ) * zf
let dotAB := (gAB.1 : ℚ) * xf + (gAB.2.1 : ℚ) * (yf-1) + (gAB.2.2 : ℚ) * zf
let dotBB := (gBB.1 : ℚ) * (xf-1) + (gBB.2.1 : ℚ) * (yf-1) + (gBB.2.2 : ℚ) * zf
let xLerp1 := RE_NOISE_LERP_f32 dotAA dotBA u
let xLerp2 := RE_NOISE_LERP_f32 dotAB dotBB u
let yLerp := RE_NOISE_LERP_f32 xLerp1 xLerp2 v
RE_NOISE_LERP_f32 yLerp
  (RE_NOISE_LERP_f32
    (RE_NOISE_LERP_f32
      ((gAA.1 : ℚ) * xf + (gAA.2.1 : ℚ) * yf + (gAA.2.2 : ℚ) * (zf-1))
      ((gBA.1 : ℚ) * (xf-1) + (gBA.2.1 : ℚ) * yf + (gBA.2.2 : ℚ) * (zf-1)) u)
    (RE_NOISE_LERP_f32
      ((gAB.1 : ℚ) * xf + (gAB.2.1 : ℚ) * (yf-1) + (gAB.2.2 : ℚ) * (zf-1))
      ((gBB.1 : ℚ) * (xf-1) + (gBB.2.1 : ℚ) * (yf-1) + (gBB.2.2 : ℚ) * (zf-1)) u)
    v)
  w

/-- Classic Perlin as the spec's §4.4 words describe it (the comparison
definition for the C1 refinement claim): hash each of the eight unit-cube
corners independently with the cascaded table hash, select
`RE_NOISE_GRAD3[hash % 12]`, dot it with the offset `(xf-dx, yf-dy, zf-dz)`
from that corner, and trilinearly blend with the faded weights. -/
def RE_NOISE_PERLIN3_f32_eightCornerSpec (x y z : ℚ) : ℚ :=
let X := RE_FASTFLOOR_f32 x
let Y := RE_FASTFLOOR_f32 y
let Z := RE_FASTFLOOR_f32 z
let xf := x - (X : ℚ)
let yf := y - (Y : ℚ)
let zf := z - (Z : ℚ)
let u := RE_NOISE_FADE_f32 xf
let v := RE_NOISE_FADE_f32 yf
let w := RE_NOISE_FADE_f32 zf
let d : ℤ → ℤ → ℤ → ℚ := fun dx dy dz =>
  let g := grad3At (RE_NOISE_HASH3 (X + dx) (Y + dy) (Z + dz) % 12)
  (g.1 : ℚ) * (xf - (dx : ℚ)) + (g.2.1 : ℚ) * (yf - (dy : ℚ)) +
    (g.2.2 : ℚ) * (zf - (dz : ℚ))
RE_NOISE_LERP_f32
  (RE_NOISE_LERP_f32 (RE_NOISE_LERP_f32 (d 0 0 0) (d 1 0 0) u)
                     (RE_NOISE_LERP_f32 (d 0 1 0) (d 1 1 0) u) v)
  (RE_NOISE_LERP_f32 (RE_NOISE_LERP_f32 (d 0 0 1) (d 1 0 1) u)
                     (RE_NOISE_LERP_f32 (d 0 1 1) (d 1 1 1) u) v)
  w

/-- Restructured form of the source's Perlin evaluator that makes the
gradient sharing explicit: eight corner dot products in which the gradient
of corner `(dx,dy,dz)` depends only on `(dx,dy)` — the `z+1` corner reuses
the gradient of the corresponding `z` corner, only the offset's
`z`-component changes. -/
def RE_NOISE_PERLIN3_f32_sharedGrad (x y z : ℚ) : ℚ :=
let X := (RE_FASTFLOOR_f32 x).emod 256
let Y := (RE_FASTFLOOR_f32 y).emod 256
let Z := (RE_FASTFLOOR_f32 z).emod 256
let xf := x - (RE_FASTFLOOR_f32 x : ℚ)
let yf := y - (RE_FASTFLOOR_f32 y : ℚ)
let zf := z - (RE_FASTFLOOR_f32 z : ℚ)
let u := RE_NOISE_FADE_f32 xf
let v := RE_NOISE_FADE_f32 yf
let w := RE_NOISE_FADE_f32 zf
let gsel : ℤ → ℤ → ℤ × ℤ × ℤ := fun dx dy =>
  grad3At (RE_NOISE_HASH ((RE_NOISE_HASH2 (X + dx) Y : ℤ) + Z + dy) % 12)
let d : ℤ → ℤ → ℤ → ℚ := fun dx dy dz =>
  let g := gsel dx dy
  (g.1 : ℚ) * (xf - (dx : ℚ)) + (g.2.1 : ℚ) * (yf - (dy : ℚ)) +
    (g.2.2 : ℚ) * (zf - (dz : ℚ))
RE_NOISE_LERP_f32
  (RE_NOISE_LERP_f32 (RE_NOISE_LERP_f32 (d 0 0 0) (d 1 0 0) u)
                     (RE_NOISE_LERP_f32 (d 0 1 0) (d 1 1 0) u) v)
  (RE_NOISE_LERP_f32 (RE_NOISE_LERP_f32 (d 0 0 1) (d 1 0 1) u)
                     (RE_NOISE_LERP_f32 (d 0 1 1) (d 1 1 1) u) v)
  w

lemma ffloor_half : RE_FASTFLOOR_f32 (1/2 : ℚ) = 0 := by
  rw [RE_FASTFLOOR_f32_eq_floor]
  norm_num

/-- C1 counterexample: at `(0.5, 0.5, 0.5)` the source's Perlin evaluator
disagrees with the spec's independently-hashed eight-corner algorithm
(the source evaluates to `-1/4`, the spec's algorithm to `1/4`), because
the source reuses the four `z`-level gradients at the `z+1` corners. -/
theorem claim_C1_counterexample :
    RE_NOISE_PERLIN3_f32_scalar (1/2) (1/2) (1/2) ≠
      RE_NOISE_PERLIN3_f32_eightCornerSpec (1/2) (1/2) (1/2) := by
  have hA : RE_NOISE_HASH2 0 0 = 17 := by decide
  have hB : RE_NOISE_HASH2 1 0 = 119 := by decide
  have hH17 : RE_NOISE_HASH 17 = 36 := by decide
  have hH18 : RE_NOISE_HASH 18 = 103 := by decide
  have hH119 : RE_NOISE_HASH 119 = 86 := by decide
  have hH120 : RE_NOISE_HASH 120 = 164 := by decide
  have h000 : RE_NOISE_HASH3 0 0 0 = 36 := by decide
  have h100 : RE_NOISE_HASH3 1 0 0 = 86 := by decide
  have h010 : RE_NOISE_HASH3 0 1 0 = 108 := by decide
  have h110 : RE_NOISE_HASH3 1 1 0 = 128 := by decide
  have h001 : RE_NOISE_HASH3 0 0 1 = 103 := by decide
  have h101 : RE_NOISE_HASH3 1 0 1 = 164 := by decide
  have h011 : RE_NOISE_HASH3 0 1 1 = 110 := by decide
  have h111 : RE_NOISE_HASH3 1 1 1 = 195 := by decide
  have hg0 : grad3At 0 = (1, 1, 0) := by decide
  have hg2 : grad3At 2 = (1, -1, 0) := by decide
  have hg3 : grad3At 3 = (-1, -1, 0) := by decide
  have hg7 : grad3At 7 = (-1, 0, -1) := by decide
  have hg8 : grad3At 8 = (0, 1, 1) := by decide
  rw [RE_NOISE_PERLIN3_f32_scalar, RE_NOISE_PERLIN3_f32_eightCornerSpec, ffloor_half]
  norm_num [hA, hB, hH17, hH18, hH119, hH120,
    h000, h100, h010, h110, h001, h101, h011, h111,
    hg0, hg2, hg3, hg7, hg8,
    RE_NOISE_FADE_f32, RE_NOISE_LERP_f32]

/-- C1 (amended): `RE_NOISE_PERLIN3_f32_scalar` does compute eight corner
dot products blended trilinearly, each using a gradient selected as
`RE_NOISE_GRAD3[hash % 12]` and dotted with that corner's offset
`(xf-dx, yf-dy, zf-dz)` — but only four gradients are hashed (codes `AA`,
`BA`, `AB`, `BB`); the gradient of a corner depends only on `(dx, dy)`, so
the gradient used at a `z+1` corner is exactly the gradient reused from the
corresponding `z` corner, not an independently hashed one. -/
theorem claim_C1_amended_shared_gradients (x y z : ℚ) :
    RE_NOISE_PERLIN3_f32_scalar x y z = RE_NOISE_PERLIN3_f32_sharedGrad x y z := by
  simp only [RE_NOISE_PERLIN3_f32_scalar, RE_NOISE_PERLIN3_f32_sharedGrad,
    add_zero, Int.cast_zero, Int.cast_one, sub_zero]

/-! ### SIMD dispatch (C10) -/

/-- The compile-time SIMD dispatch alternatives of `re_noise.h`
(`RE_SIMD_AVX` / `RE_SIMD_SSE` / `RE_SIMD_NEON` / fallback), modelled as an
explicit parameter so every preprocessor path can be quantified over. -/
inductive SimdPath where
| sse : SimdPath
| avx : SimdPath
| neon : SimdPath
| scalarOnly : SimdPath

/-- `RE_NOISE_PERLIN3_f32_sse`: falls back to the scalar implementation. -/
def RE_NOISE_PERLIN3_f32_sse (x y z : ℚ) : ℚ := RE_NOISE_PERLIN3_f32_scalar x y z

/-- `RE_NOISE_PERLIN3_f32_avx`: falls back to the scalar implementation. -/
def RE_NOISE_PERLIN3_f32_avx (x y z : ℚ) : ℚ := RE_NOISE_PERLIN3_f32_scalar x y z

/-- `RE_NOISE_PERLIN3_f32_neon`: falls back to the scalar implementation. -/
def RE_NOISE_PERLIN3_f32_neon (x y z : ℚ) : ℚ := RE_NOISE_PERLIN3_f32_scalar x y z

/-- `RE_NOISE_PERLIN3_f32` master dispatch over the compile-time path. -/
def RE_NOISE_PERLIN3_f32 : SimdPath → ℚ → ℚ → ℚ → ℚ
| SimdPath.avx => RE_NOISE_PERLIN3_f32_avx
| SimdPath.sse => RE_NOISE_PERLIN3_f32_sse
| SimdPath.neon => RE_NOISE_PERLIN3_f32_neon
| SimdPath.scalarOnly => RE_NOISE_PERLIN3_f32_scalar

/-- C10: on every compile-time dispatch path (AVX, SSE, NEON or the scalar
fallback) the dispatcher `RE_NOISE_PERLIN3_f32` returns exactly
`RE_NOISE_PERLIN3_f32_scalar(x,y,z)`: each SIMD-specific variant is defined
as a call to the scalar implementation. -/
theorem claim_C10_dispatch_equals_scalar (p : SimdPath) (x y z : ℚ) :
    RE_NOISE_PERLIN3_f32 p x y z = RE_NOISE_PERLIN3_f32_scalar x y z := by
  cases p <;> rfl

/-! ### OpenSimplex2 3D (skew-based Smooth and Fast evaluators) -/

/-- The shared preamble of the four skew-based OpenSimplex2 3D evaluators
(`RE_NOISE_OS3D_SMOOTH_f32/f64`, `RE_NOISE_OS3D_FAST_f32/f64`, whose C
bodies are line-for-line identical here under exact arithmetic): skew by
`s = (x+y+z) * R3`, floor, unskew by `t = (xi+yi+zi) * R3`, and rank the
components with `>=` comparisons. -/
structure OS3DSetup where
  xi : ℤ
  yi : ℤ
  zi : ℤ
  x0 : ℚ
  y0 : ℚ
  z0 : ℚ
  rx : ℤ
  ry : ℤ
  rz : ℤ

def os3dSetup (x y z : ℚ) : OS3DSetup :=
let R3 : ℚ := 2/3
let s := (x + y + z) * R3
let xs := x + s
let ys := y + s
let zs := z + s
let xi := RE_FASTFLOOR_f32 xs
let yi := RE_FASTFLOOR_f32 ys
let zi := RE_FASTFLOOR_f32 zs
let t := ((xi + yi + zi : ℤ) : ℚ) * R3
let X0 := (xi : ℚ) - t
let Y0 := (yi : ℚ) - t
let Z0 := (zi : ℚ) - t
let x0 := x - X0
let y0 := y - Y0
let z0 := z - Z0
let rx := (if x0 ≥ y0 then (1 : ℤ) else 0) + (if x0 ≥ z0 then 1 else 0)
let ry := (if y0 ≥ x0 then (1 : ℤ) else 0) + (if y0 ≥ z0 then 1 else 0)
let rz := 3 - (rx + ry)
⟨xi, yi, zi, x0, y0, z0, rx, ry, rz⟩

/-- `LATTICE_CORNER` of the Smooth variant (5 corners). -/
def LATTICE_CORNER : List (ℤ × ℤ × ℤ) := [(0,0,0), (1,0,0), (0,1,0), (0,0,1), (1,1,1)]

/-- `LATTICE` of the Fast variant (4 corners). -/
def LATTICE : List (ℤ × ℤ × ℤ) := [(0,0,0), (1,0,0), (0,1,0), (0,0,1)]

/-- Corner lattice offsets for index `i`: the table entry, with the rank
overrides `if (i==1) dx = (rx>=2); if (i==2) dy = (ry>=2);
if (i==3) dz = (rz>=2);`. -/
def os3dOffsets (tbl : List (ℤ × ℤ × ℤ)) (rx ry rz : ℤ) (i : ℕ) : ℤ × ℤ × ℤ :=
let d := tbl.getD i (0, 0, 0)
(if i = 1 then (if rx ≥ 2 then 1 else 0) else d.1,
 if i = 2 then (if ry ≥ 2 then 1 else 0) else d.2.1,
 if i = 3 then (if rz ≥ 2 then 1 else 0) else d.2.2)

/-- `RE_NOISE_OS3D_SMOOTH_f32` (OpenSimplex2S 3D, radius constant `0.6f`). -/
def RE_NOISE_OS3D_SMOOTH_f32 (x y z : ℚ) : ℚ :=
let st := os3dSetup x y z
let value := (List.range 5).foldl (fun value i =>
  let d := os3dOffsets LATTICE_CORNER st.rx st.ry st.rz i
  let px := st.x0 - (d.1 : ℚ) + (2/3 : ℚ) * (i : ℚ)
  let py := st.y0 - (d.2.1 : ℚ) + (2/3 : ℚ) * (i : ℚ)
  let pz := st.z0 - (d.2.2 : ℚ) + (2/3 : ℚ) * (i : ℚ)
  let attn := (0.6 : ℚ) - (px*px + py*py + pz*pz)
  if 0 < attn then
    let hash := RE_NOISE_HASH3 (st.xi + d.1) (st.yi + d.2.1) (st.zi + d.2.2)
    let g := grad3At (hash % 12)
    let dot := (g.1 : ℚ) * px + (g.2.1 : ℚ) * py + (g.2.2 : ℚ) * pz
    value + (attn * attn) * (attn * attn) * dot
  else value) 0
value * OS3D_SCALE_F32

/-- `RE_NOISE_OS3D_SMOOTH_f64`: the same algorithm at `f64` width. -/
def RE_NOISE_OS3D_SMOOTH_f64 (x y z : ℚ) : ℚ :=
let st := os3dSetup x y z
let value := (List.range 5).foldl (fun value i =>
  let d := os3dOffsets LATTICE_CORNER st.rx st.ry st.rz i
  let px := st.x0 - (d.1 : ℚ) + (2/3 : ℚ) * (i : ℚ)
  let py := st.y0 - (d.2.1 : ℚ) + (2/3 : ℚ) * (i : ℚ)
  let pz := st.z0 - (d.2.2 : ℚ) + (2/3 : ℚ) * (i : ℚ)
  let attn := (0.6 : ℚ) - (px*px + py*py + pz*pz)
  if 0 < attn then
    let hash := RE_NOISE_HASH3 (st.xi + d.1) (st.yi + d.2.1) (st.zi + d.2.2)
    let g := grad3At (hash % 12)
    let dot := (g.1 : ℚ) * px + (g.2.1 : ℚ) * py + (g.2.2 : ℚ) * pz
    value + (attn * attn) * (attn * attn) * dot
  else value) 0
value * OS3D_SCALE_F64

/-- `RE_NOISE_OS3D_FAST_f32` (4 corners, radius constant `0.75f`). -/
def RE_NOISE_OS3D_FAST_f32 (x y z : ℚ) : ℚ :=
let st := os3dSetup x y z
let value := (List.range 4).foldl (fun value i =>
  let d := os3dOffsets LATTICE st.rx st.ry st.rz i
  let px := st.x0 - (d.1 : ℚ) + (2/3 : ℚ) * (i : ℚ)
  let py := st.y0 - (d.2.1 : ℚ) + (2/3 : ℚ) * (i : ℚ)
  let pz := st.z0 - (d.2.2 : ℚ) + (2/3 : ℚ) * (i : ℚ)
  let attn := (0.75 : ℚ) - (px*px + py*py + pz*pz)
  if 0 < attn then
    let hash := RE_NOISE_HASH3 (st.xi + d.1) (st.yi + d.2.1) (st.zi + d.2.2)
    let g := grad3At (hash % 12)
    let dot := (g.1 : ℚ) * px + (g.2.1 : ℚ) * py + (g.2.2 : ℚ) * pz
    value + (attn * attn) * (attn * attn) * dot
  else value) 0
value * OS3D_SCALE_F32

/-- `RE_NOISE_OS3D_FAST_f64`: the same algorithm at `f64` width. -/
def RE_NOISE_OS3D_FAST_f64 (x y z : ℚ) : ℚ :=
let st := os3dSetup x y z
let value := (List.range 4).foldl (fun value i =>
  let d := os3dOffsets LATTICE st.rx st.ry st.rz i
  let px := st.x0 - (d.1 : ℚ) + (2/3 : ℚ) * (i : ℚ)
  let py := st.y0 - (d.2.1 : ℚ) + (2/3 : ℚ) * (i : ℚ)
  let pz := st.z0 - (d.2.2 : ℚ) + (2/3 : ℚ) * (i : ℚ)
  let attn := (0.75 : ℚ) - (px*px + py*py + pz*pz)
  if 0 < attn then
    let hash := RE_NOISE_HASH3 (st.xi + d.1) (st.yi + d.2.1) (st.zi + d.2.2)
    let g := grad3At (hash % 12)
    let dot := (g.1 : ℚ) * px + (g.2.1 : ℚ) * py + (g.2.2 : ℚ) * pz
    value + (attn * attn) * (attn * attn) * dot
  else value) 0
value * OS3D_SCALE_F64

/-- Local delta `(px, py, pz)` of corner `i` (for the C2 statement). -/
def os3dDelta (x y z : ℚ) (tbl : List (ℤ × ℤ × ℤ)) (i : ℕ) : ℚ × ℚ × ℚ :=
let st := os3dSetup x y z
let d := os3dOffsets tbl st.rx st.ry st.rz i
(st.x0 - (d.1 : ℚ) + (2/3 : ℚ) * (i : ℚ),
 st.y0 - (d.2.1 : ℚ) + (2/3 : ℚ) * (i : ℚ),
 st.z0 - (d.2.2 : ℚ) + (2/3 : ℚ) * (i : ℚ))

/-- Squared length `px² + py² + pz²` of corner `i`'s local delta. -/
def os3dDeltaSq (x y z : ℚ) (tbl : List (ℤ × ℤ × ℤ)) (i : ℕ) : ℚ :=
let p := os3dDelta x y z tbl i
p.1 * p.1 + p.2.1 * p.2.1 + p.2.2 * p.2.2

/-- Dot product of corner `i`'s hash-selected gradient with its local
delta. -/
def os3dDot (x y z : ℚ) (tbl : List (ℤ × ℤ × ℤ)) (i : ℕ) : ℚ :=
let st := os3dSetup x y z
let d := os3dOffsets tbl st.rx st.ry st.rz i
let p := os3dDelta x y z tbl i
let hash := RE_NOISE_HASH3 (st.xi + d.1) (st.yi + d.2.1) (st.zi + d.2.2)
let g := grad3At (hash % 12)
(g.1 : ℚ) * p.1 + (g.2.1 : ℚ) * p.2.1 + (g.2.2 : ℚ) * p.2.2

lemma os3dDelta_fold_1 (x y z : ℚ) (tbl : List (ℤ × ℤ × ℤ)) (i : ℕ) :
    (os3dSetup x y z).x0 -
        ((os3dOffsets tbl (os3dSetup x y z).rx (os3dSetup x y z).ry
          (os3dSetup x y z).rz i).1 : ℚ) + (2/3 : ℚ) * (i : ℚ) =
      (os3dDelta x y z tbl i).1 := rfl

lemma os3dDelta_fold_2 (x y z : ℚ) (tbl : List (ℤ × ℤ × ℤ)) (i : ℕ) :
    (os3dSetup x y z).y0 -
        ((os3dOffsets tbl (os3dSetup x y z).rx (os3dSetup x y z).ry
          (os3dSetup x y z).rz i).2.1 : ℚ) + (2/3 : ℚ) * (i : ℚ) =
      (os3dDelta x y z tbl i).2.1 := rfl

lemma os3dDelta_fold_3 (x y z : ℚ) (tbl : List (ℤ × ℤ × ℤ)) (i : ℕ) :
    (os3dSetup x y z).z0 -
        ((os3dOffsets tbl (os3dSetup x y z).rx (os3dSetup x y z).ry
          (os3dSetup x y z).rz i).2.2 : ℚ) + (2/3 : ℚ) * (i : ℚ) =
      (os3dDelta x y z tbl i).2.2 := rfl

lemma os3dDeltaSq_fold (x y z : ℚ) (tbl : List (ℤ × ℤ × ℤ)) (i : ℕ) :
    (os3dDelta x y z tbl i).1 * (os3dDelta x y z tbl i).1 +
        (os3dDelta x y z tbl i).2.1 * (os3dDelta x y z tbl i).2.1 +
        (os3dDelta x y z tbl i).2.2 * (os3dDelta x y z tbl i).2.2 =
      os3dDeltaSq x y z tbl i := rfl

lemma os3dDot_fold (x y z : ℚ) (tbl : List (ℤ × ℤ × ℤ)) (i : ℕ) :
    ((grad3At (RE_NOISE_HASH3
        ((os3dSetup x y z).xi + (os3dOffsets tbl (os3dSetup x y z).rx
          (os3dSetup x y z).ry (os3dSetup x y z).rz i).1)
        ((os3dSetup x y z).yi + (os3dOffsets tbl (os3dSetup x y z).rx
          (os3dSetup x y z).ry (os3dSetup x y z).rz i).2.1)
        ((os3dSetup x y z).zi + (os3dOffsets tbl (os3dSetup x y z).rx
          (os3dSetup x y z).ry (os3dSetup x y z).rz i).2.2) % 12)).1 : ℚ) *
          (os3dDelta x y z tbl i).1 +
      ((grad3At (RE_NOISE_HASH3
        ((os3dSetup x y z).xi + (os3dOffsets tbl (os3dSetup x y z).rx
          (os3dSetup x y z).ry (os3dSetup x y z).rz i).1)
        ((os3dSetup x y z).yi + (os3dOffsets tbl (os3dSetup x y z).rx
          (os3dSetup x y z).ry (os3dSetup x y z).rz i).2.1)
        ((os3dSetup x y z).zi + (os3dOffsets tbl (os3dSetup x y z).rx
          (os3dSetup x y z).ry (os3dSetup x y z).rz i).2.2) % 12)).2.1 : ℚ) *
          (os3dDelta x y z tbl i).2.1 +
      ((grad3At (RE_NOISE_HASH3
        ((os3dSetup x y z).xi + (os3dOffsets tbl (os3dSetup x y z).rx
          (os3dSetup x y z).ry (os3dSetup x y z).rz i).1)
        ((os3dSetup x y z).yi + (os3dOffsets tbl (os3dSetup x y z).rx
          (os3dSetup x y z).ry (os3dSetup x y z).rz i).2.1)
        ((os3dSetup x y z).zi + (os3dOffsets tbl (os3dSetup x y z).rx
          (os3dSetup x y z).ry (os3dSetup x y z).rz i).2.2) % 12)).2.2 : ℚ) *
          (os3dDelta x y z tbl i).2.2 =
      os3dDot x y z tbl i := rfl

/-- C2: in all four skew-based OpenSimplex2 3D evaluators, the pre-scale
sum is exactly the sum over the enumerated corners of
`attn^4 * dot(selected gradient, (px,py,pz))` for corners with `attn > 0`
and `0` (no gradient contribution) for corners with `attn <= 0`, where
`attn = 0.6 - (px²+py²+pz²)` in the Smooth variants (5 corners) and
`attn = 0.75 - (px²+py²+pz²)` in the Fast variants (4 corners). -/
theorem claim_C2_os3d_corner_contributions (x y z : ℚ) :
    RE_NOISE_OS3D_SMOOTH_f32 x y z = OS3D_SCALE_F32 *
      ((List.range 5).map (fun i =>
        if 0 < (0.6 : ℚ) - os3dDeltaSq x y z LATTICE_CORNER i then
          ((0.6 : ℚ) - os3dDeltaSq x y z LATTICE_CORNER i) ^ 4 *
            os3dDot x y z LATTICE_CORNER i
        else 0)).sum ∧
    RE_NOISE_OS3D_SMOOTH_f64 x y z = OS3D_SCALE_F64 *
      ((List.range 5).map (fun i =>
        if 0 < (0.6 : ℚ) - os3dDeltaSq x y z LATTICE_CORNER i then
          ((0.6 : ℚ) - os3dDeltaSq x y z LATTICE_CORNER i) ^ 4 *
            os3dDot x y z LATTICE_CORNER i
        else 0)).sum ∧
    RE_NOISE_OS3D_FAST_f32 x y z = OS3D_SCALE_F32 *
      ((List.range 4).map (fun i =>
        if 0 < (0.75 : ℚ) - os3dDeltaSq x y z LATTICE i then
          ((0.75 : ℚ) - os3dDeltaSq x y z LATTICE i) ^ 4 *
            os3dDot x y z LATTICE i
        else 0)).sum ∧
    RE_NOISE_OS3D_FAST_f64 x y z = OS3D_SCALE_F64 *
      ((List.range 4).map (fun i =>
        if 0 < (0.75 : ℚ) - os3dDeltaSq x y z LATTICE i then
          ((0.75 : ℚ) - os3dDeltaSq x y z LATTICE i) ^ 4 *
            os3dDot x y z LATTICE i
        else 0)).sum := by
  refine ⟨?_, ?_, ?_, ?_⟩ <;>
  · simp only [RE_NOISE_OS3D_SMOOTH_f32, RE_NOISE_OS3D_SMOOTH_f64,
      RE_NOISE_OS3D_FAST_f32, RE_NOISE_OS3D_FAST_f64,
      show List.range 5 = [0, 1, 2, 3, 4] from rfl,
      show List.range 4 = [0, 1, 2, 3] from rfl,
      List.foldl_cons, List.foldl_nil, List.map_cons, List.map_nil,
      List.sum_cons, List.sum_nil]
    simp only [os3dDelta_fold_1, os3dDelta_fold_2, os3dDelta_fold_3]
    simp only [os3dDeltaSq_fold, os3dDot_fold]
    split_ifs <;> ring

lemma os3dSetup_at_testpoint :
    os3dSetup (3/10) (7/10) (9/10) = ⟨1, 1, 2, 59/30, 71/30, 47/30, 1, 2, 0⟩ := by
  unfold os3dSetup
  norm_num [RE_FASTFLOOR_f32_eq_floor]

lemma os3dSetup_at_tenth :
    os3dSetup (1/10) (1/10) (1/10) = ⟨0, 0, 0, 1/10, 1/10, 1/10, 2, 2, -1⟩ := by
  unfold os3dSetup
  norm_num [RE_FASTFLOOR_f32_eq_floor]

/-- C8 counterexample: at the claim's own generic point `(0.3, 0.7, 0.9)`
the two cited evaluators coincide — the skew/unskew preamble leaves every
corner delta outside both influence radii, every corner is rejected by the
`attn > 0` branch, and both functions return exactly `0`. -/
theorem claim_C8_counterexample :
    RE_NOISE_OS3D_FAST_f32 (3/10) (7/10) (9/10) =
      RE_NOISE_OS3D_SMOOTH_f32 (3/10) (7/10) (9/10) := by
  have ho0 : os3dOffsets LATTICE_CORNER 1 2 0 0 = (0, 0, 0) := by decide
  have ho1 : os3dOffsets LATTICE_CORNER 1 2 0 1 = (0, 0, 0) := by decide
  have ho2 : os3dOffsets LATTICE_CORNER 1 2 0 2 = (0, 1, 0) := by decide
  have ho3 : os3dOffsets LATTICE_CORNER 1 2 0 3 = (0, 0, 0) := by decide
  have ho4 : os3dOffsets LATTICE_CORNER 1 2 0 4 = (1, 1, 1) := by decide
  have hf0 : os3dOffsets LATTICE 1 2 0 0 = (0, 0, 0) := by decide
  have hf1 : os3dOffsets LATTICE 1 2 0 1 = (0, 0, 0) := by decide
  have hf2 : os3dOffsets LATTICE 1 2 0 2 = (0, 1, 0) := by decide
  have hf3 : os3dOffsets LATTICE 1 2 0 3 = (0, 0, 0) := by decide
  simp only [RE_NOISE_OS3D_FAST_f32, RE_NOISE_OS3D_SMOOTH_f32, os3dSetup_at_testpoint,
    show List.range 5 = [0, 1, 2, 3, 4] from rfl,
    show List.range 4 = [0, 1, 2, 3] from rfl,
    List.foldl_cons, List.foldl_nil]
  norm_num [ho0, ho1, ho2, ho3, ho4, hf0, hf1, hf2, hf3, OS3D_SCALE_F32]

/-- C8 (amended): the Fast and Smooth skew-based 3D evaluators do disagree
at generic non-degenerate inputs — at `(0.1, 0.1, 0.1)` the cell-origin
corner is inside both influence radii and the differing radius constants
(`0.75` vs `0.6`) give different values — but not at the claim's chosen
point `(0.3, 0.7, 0.9)`, where both are exactly `0`. -/
theorem claim_C8_amended_distinct_at_tenth :
    RE_NOISE_OS3D_FAST_f32 (1/10) (1/10) (1/10) ≠
      RE_NOISE_OS3D_SMOOTH_f32 (1/10) (1/10) (1/10) := by
  have ho0 : os3dOffsets LATTICE_CORNER 2 2 (-1) 0 = (0, 0, 0) := by decide
  have ho1 : os3dOffsets LATTICE_CORNER 2 2 (-1) 1 = (1, 0, 0) := by decide
  have ho2 : os3dOffsets LATTICE_CORNER 2 2 (-1) 2 = (0, 1, 0) := by decide
  have ho3 : os3dOffsets LATTICE_CORNER 2 2 (-1) 3 = (0, 0, 0) := by decide
  have ho4 : os3dOffsets LATTICE_CORNER 2 2 (-1) 4 = (1, 1, 1) := by decide
  have hf0 : os3dOffsets LATTICE 2 2 (-1) 0 = (0, 0, 0) := by decide
  have hf1 : os3dOffsets LATTICE 2 2 (-1) 1 = (1, 0, 0) := by decide
  have hf2 : os3dOffsets LATTICE 2 2 (-1) 2 = (0, 1, 0) := by decide
  have hf3 : os3dOffsets LATTICE 2 2 (-1) 3 = (0, 0, 0) := by decide
  have h000 : RE_NOISE_HASH3 0 0 0 = 36 := by decide
  have hg0 : grad3At 0 = (1, 1, 0) := by decide
  simp only [RE_NOISE_OS3D_FAST_f32, RE_NOISE_OS3D_SMOOTH_f32, os3dSetup_at_tenth,
    show List.range 5 = [0, 1, 2, 3, 4] from rfl,
    show List.range 4 = [0, 1, 2, 3] from rfl,
    List.foldl_cons, List.foldl_nil]
  norm_num [ho0, ho1, ho2, ho3, ho4, hf0, hf1, hf2, hf3, h000, hg0, OS3D_SCALE_F32]

/-! ### Bounds-checked table reads (for the C9 safety claim)

Each `_checked` variant performs exactly the same computation as its plain
counterpart but reads every table through `l[i]?`, which returns `none` on
any out-of-bounds index. Proving `checked = some plain` for all inputs
shows no table read of the embedded code can be out of bounds. -/

lemma getElem?_eq_some_getD {α : Type} (l : List α) (d : α) (i : ℕ)
    (h : i < l.length) : l[i]? = some (l.getD i d) := by
  rw [List.getElem?_eq_getElem h, List.getD_eq_getElem?_getD,
    List.getElem?_eq_getElem h]
  rfl

lemma foldlM_option_eq_foldl {α β : Type} (f : β → α → Option β) (g : β → α → β)
    (hf : ∀ b a, f b a = some (g b a)) :
    ∀ (l : List α) (init : β), List.foldlM f init l = some (List.foldl g init l) := by
  intro l
  induction l with
  | nil => intro init; rfl
  | cons a l ih =>
    intro init
    rw [List.foldlM_cons, hf, List.foldl_cons]
    simp only [Option.bind_eq_bind, Option.some_bind]
    exact ih _

lemma perm_getElem?_eq (i : ℕ) (h : i < 256) :
    RE_NOISE_PERM[i]? = some (permAt i) :=
  getElem?_eq_some_getD _ 0 i (by rw [show RE_NOISE_PERM.length = 256 by decide]; exact h)

lemma perm256_getElem?_eq (i : ℕ) (h : i < 256) :
    RE_NOISE_PERM_256[i]? = some (perm256At i) :=
  getElem?_eq_some_getD _ 0 i
    (by rw [show RE_NOISE_PERM_256.length = 512 by decide]; omega)

lemma grad3_getElem?_eq (h : ℕ) :
    RE_NOISE_GRAD3[h % 12]? = some (grad3At (h % 12)) :=
  getElem?_eq_some_getD _ (0, 0, 0) _
    (by rw [show RE_NOISE_GRAD3.length = 12 by decide]; exact Nat.mod_lt _ (by norm_num))

/-- Read of `RE_NOISE_GRAD2[i]`. -/
def grad2At (i : ℕ) : ℤ × ℤ := RE_NOISE_GRAD2.getD i (0, 0)

lemma grad2_getElem?_eq (h : ℕ) :
    RE_NOISE_GRAD2[h &&& 7]? = some (grad2At (h &&& 7)) :=
  getElem?_eq_some_getD _ (0, 0) _
    (by
      rw [show RE_NOISE_GRAD2.length = 8 by decide]
      have := Nat.and_le_right (n := h) (m := 7)
      omega)

/-- Bounds-checked `RE_NOISE_HASH`. -/
def RE_NOISE_HASH_checked (x : ℤ) : Option ℕ := RE_NOISE_PERM[u8ofInt x]?

/-- Bounds-checked `RE_NOISE_HASH2`. -/
def RE_NOISE_HASH2_checked (x y : ℤ) : Option ℕ :=
(RE_NOISE_HASH_checked x).bind fun a => RE_NOISE_PERM[u8ofInt ((a : ℤ) + y)]?

/-- Bounds-checked `RE_NOISE_HASH3`. -/
def RE_NOISE_HASH3_checked (x y z : ℤ) : Option ℕ :=
(RE_NOISE_HASH2_checked x y).bind fun b => RE_NOISE_PERM[u8ofInt ((b : ℤ) + z)]?

/-- Bounds-checked mode-1 `RE_HASH3D`. -/
def RE_HASH3D_checked (x y z : ℤ) : Option ℕ :=
(RE_NOISE_PERM_256[u8ofInt x]?).bind fun a =>
(RE_NOISE_PERM_256[u8ofInt ((a : ℤ) + y)]?).bind fun b =>
RE_NOISE_PERM_256[u8ofInt ((b : ℤ) + z)]?

lemma hash_checked_eq (x : ℤ) :
    RE_NOISE_HASH_checked x = some (RE_NOISE_HASH x) :=
  perm_getElem?_eq _ (u8ofInt_lt x)

lemma hash2_checked_eq (x y : ℤ) :
    RE_NOISE_HASH2_checked x y = some (RE_NOISE_HASH2 x y) := by
  unfold RE_NOISE_HASH2_checked
  rw [hash_checked_eq, Option.some_bind]
  exact perm_getElem?_eq _ (u8ofInt_lt _)

lemma hash3_checked_eq (x y z : ℤ) :
    RE_NOISE_HASH3_checked x y z = some (RE_NOISE_HASH3 x y z) := by
  unfold RE_NOISE_HASH3_checked
  rw [hash2_checked_eq, Option.some_bind]
  exact perm_getElem?_eq _ (u8ofInt_lt _)

lemma hash3d_checked_eq (x y z : ℤ) :
    RE_HASH3D_checked x y z = some (RE_HASH3D x y z) := by
  unfold RE_HASH3D_checked RE_HASH3D
  rw [perm256_getElem?_eq _ (u8ofInt_lt _), Option.some_bind,
    perm256_getElem?_eq _ (u8ofInt_lt _), Option.some_bind,
    perm256_getElem?_eq _ (u8ofInt_lt _)]

/-- `RE_OS3D_GRAD_DOT_FAST_f32`: gradient lookup by `hash % 12` and dot. -/
def RE_OS3D_GRAD_DOT_FAST_f32 (hash : ℕ) (dx dy dz : ℚ) : ℚ :=
let g := grad3At (hash % 12)
(g.1 : ℚ) * dx + (g.2.1 : ℚ) * dy + (g.2.2 : ℚ) * dz

/-- Bounds-checked `RE_OS3D_GRAD_DOT_FAST_f32`. -/
def RE_OS3D_GRAD_DOT_FAST_f32_checked (hash : ℕ) (dx dy dz : ℚ) : Option ℚ :=
(RE_NOISE_GRAD3[hash % 12]?).map fun g =>
  (g.1 : ℚ) * dx + (g.2.1 : ℚ) * dy + (g.2.2 : ℚ) * dz

lemma grad_dot_checked_eq (hash : ℕ) (dx dy dz : ℚ) :
    RE_OS3D_GRAD_DOT_FAST_f32_checked hash dx dy dz =
      some (RE_OS3D_GRAD_DOT_FAST_f32 hash dx dy dz) := by
  unfold RE_OS3D_GRAD_DOT_FAST_f32_checked RE_OS3D_GRAD_DOT_FAST_f32
  rw [grad3_getElem?_eq, Option.map_some']

/-- The loop body of `RE_NOISE_OS3D_SMOOTH_f32`, as a named function. -/
def os3dSmoothBody (st : OS3DSetup) (value : ℚ) (i : ℕ) : ℚ :=
let d := os3dOffsets LATTICE_CORNER st.rx st.ry st.rz i
let px := st.x0 - (d.1 : ℚ) + (2/3 : ℚ) * (i : ℚ)
let py := st.y0 - (d.2.1 : ℚ) + (2/3 : ℚ) * (i : ℚ)
let pz := st.z0 - (d.2.2 : ℚ) + (2/3 : ℚ) * (i : ℚ)
let attn := (0.6 : ℚ) - (px*px + py*py + pz*pz)
if 0 < attn then
  let hash := RE_NOISE_HASH3 (st.xi + d.1) (st.yi + d.2.1) (st.zi + d.2.2)
  let g := grad3At (hash % 12)
  let dot := (g.1 : ℚ) * px + (g.2.1 : ℚ) * py + (g.2.2 : ℚ) * pz
  value + (attn * attn) * (attn * attn) * dot
else value

/-- The same loop body with bounds-checked table reads. -/
def os3dSmoothBodyChecked (st : OS3DSetup) (value : ℚ) (i : ℕ) : Option ℚ :=
let d := os3dOffsets LATTICE_CORNER st.rx st.ry st.rz i
let px := st.x0 - (d.1 : ℚ) + (2/3 : ℚ) * (i : ℚ)
let py := st.y0 - (d.2.1 : ℚ) + (2/3 : ℚ) * (i : ℚ)
let pz := st.z0 - (d.2.2 : ℚ) + (2/3 : ℚ) * (i : ℚ)
let attn := (0.6 : ℚ) - (px*px + py*py + pz*pz)
if 0 < attn then
  (RE_NOISE_HASH3_checked (st.xi + d.1) (st.yi + d.2.1) (st.zi + d.2.2)).bind fun hash =>
  (RE_NOISE_GRAD3[hash % 12]?).map fun g =>
    value + (attn * attn) * (attn * attn) *
      ((g.1 : ℚ) * px + (g.2.1 : ℚ) * py + (g.2.2 : ℚ) * pz)
else some value

/-- Bounds-checked `RE_NOISE_OS3D_SMOOTH_f32`. -/
def RE_NOISE_OS3D_SMOOTH_f32_checked (x y z : ℚ) : Option ℚ :=
((List.range 5).foldlM (os3dSmoothBodyChecked (os3dSetup x y z)) 0).map
  (fun value => value * OS3D_SCALE_F32)

lemma os3dSmoothBody_checked_eq (st : OS3DSetup) (value : ℚ) (i : ℕ) :
    os3dSmoothBodyChecked st value i = some (os3dSmoothBody st value i) := by
  unfold os3dSmoothBodyChecked os3dSmoothBody
  dsimp only
  split_ifs
  · rw [hash3_checked_eq, Option.some_bind, grad3_getElem?_eq, Option.map_some']
  · rfl

lemma os3dSmooth_as_body_foldl (x y z : ℚ) :
    RE_NOISE_OS3D_SMOOTH_f32 x y z =
      ((List.range 5).foldl (os3dSmoothBody (os3dSetup x y z)) 0) * OS3D_SCALE_F32 := rfl

/-- The `OFF` corner table of the 2D Fast evaluators. -/
def OS2D_OFF_FAST : List (ℤ × ℤ) := [(0, 0), (1, 0), (0, 1)]

/-- The loop body of `RE_NOISE_OS2D_FAST_f32`. -/
def os2dFastBody (i j : ℤ) (x0 y0 : ℚ) (value : ℚ) (c : ℤ × ℤ) : ℚ :=
let dx := x0 - (c.1 : ℚ) * (0.211324865 : ℚ)
let dy := y0 - (c.2 : ℚ) * (0.211324865 : ℚ)
let attn := (0.5 : ℚ) - dx*dx - dy*dy
if 0 < attn then
  let h := RE_NOISE_HASH2 (i + c.1) (j + c.2)
  let g := grad2At (h &&& 7)
  let dot := (g.1 : ℚ) * dx + (g.2 : ℚ) * dy
  value + (attn * attn) * (attn * attn) * dot
else value

/-- `RE_NOISE_OS2D_FAST_f32` (OpenSimplex 2D fast, 3 corners, `attn`
radius `0.5`, gradients from `RE_NOISE_GRAD2[h & 7]`). -/
def RE_NOISE_OS2D_FAST_f32 (x y : ℚ) : ℚ :=
let s := (x + y) * (0.366025403 : ℚ)
let xs := x + s
let ys := y + s
let i := RE_FASTFLOOR_f32 xs
let j := RE_FASTFLOOR_f32 ys
let xi := xs - (i : ℚ)
let yi := ys - (j : ℚ)
let x0 := x - ((i : ℚ) - (xi + yi) * (0.211324865 : ℚ))
let y0 := y - ((j : ℚ) - (xi + yi) * (0.211324865 : ℚ))
(OS2D_OFF_FAST.foldl (os2dFastBody i j x0 y0) 0) * OS2D_SCALE_F32

/-- The loop body of `RE_NOISE_OS2D_FAST_f32` with checked table reads. -/
def os2dFastBodyChecked (i j : ℤ) (x0 y0 : ℚ) (value : ℚ) (c : ℤ × ℤ) : Option ℚ :=
let dx := x0 - (c.1 : ℚ) * (0.211324865 : ℚ)
let dy := y0 - (c.2 : ℚ) * (0.211324865 : ℚ)
let attn := (0.5 : ℚ) - dx*dx - dy*dy
if 0 < attn then
  (RE_NOISE_HASH2_checked (i + c.1) (j + c.2)).bind fun h =>
  (RE_NOISE_GRAD2[h &&& 7]?).map fun g =>
    value + (attn * attn) * (attn * attn) * ((g.1 : ℚ) * dx + (g.2 : ℚ) * dy)
else some value

/-- Bounds-checked `RE_NOISE_OS2D_FAST_f32`. -/
def RE_NOISE_OS2D_FAST_f32_checked (x y : ℚ) : Option ℚ :=
let s := (x + y) * (0.366025403 : ℚ)
let xs := x + s
let ys := y + s
let i := RE_FASTFLOOR_f32 xs
let j := RE_FASTFLOOR_f32 ys
let xi := xs - (i : ℚ)
let yi := ys - (j : ℚ)
let x0 := x - ((i : ℚ) - (xi + yi) * (0.211324865 : ℚ))
let y0 := y - ((j : ℚ) - (xi + yi) * (0.211324865 : ℚ))
(OS2D_OFF_FAST.foldlM (os2dFastBodyChecked i j x0 y0) 0).map
  (fun value => value * OS2D_SCALE_F32)

lemma os2dFastBody_checked_eq (i j : ℤ) (x0 y0 : ℚ) (value : ℚ) (c : ℤ × ℤ) :
    os2dFastBodyChecked i j x0 y0 value c = some (os2dFastBody i j x0 y0 value c) := by
  unfold os2dFastBodyChecked os2dFastBody
  dsimp only
  split_ifs
  · rw [hash2_checked_eq, Option.some_bind, grad2_getElem?_eq, Option.map_some']
  · rfl

/-- C9: every table read the embedded noise code performs is in bounds:
the bounds-checked variants (which return `none` on any out-of-bounds
read) agree with the plain evaluators on every input. The permutation
tables are only indexed through the mod-256 masking `u8ofInt`, the
12-entry 3D gradient table only through `hash % 12`, and the 8-entry 2D
gradient table only through `hash & 7`, so the hash cascades, the
gradient dot helper, and the full 3D Smooth and 2D Fast evaluators are
total functions. -/
theorem claim_C9_table_reads_in_bounds :
    (∀ x y z : ℤ, RE_NOISE_HASH3_checked x y z = some (RE_NOISE_HASH3 x y z) ∧
      RE_HASH3D_checked x y z = some (RE_HASH3D x y z)) ∧
    (∀ (h : ℕ) (dx dy dz : ℚ), RE_OS3D_GRAD_DOT_FAST_f32_checked h dx dy dz =
      some (RE_OS3D_GRAD_DOT_FAST_f32 h dx dy dz)) ∧
    (∀ x y z : ℚ, RE_NOISE_OS3D_SMOOTH_f32_checked x y z =
      some (RE_NOISE_OS3D_SMOOTH_f32 x y z)) ∧
    (∀ x y : ℚ, RE_NOISE_OS2D_FAST_f32_checked x y =
      some (RE_NOISE_OS2D_FAST_f32 x y)) := by
  refine ⟨fun x y z => ⟨hash3_checked_eq x y z, hash3d_checked_eq x y z⟩,
    grad_dot_checked_eq, fun x y z => ?_, fun x y => ?_⟩
  · rw [RE_NOISE_OS3D_SMOOTH_f32_checked, os3dSmooth_as_body_foldl,
      foldlM_option_eq_foldl _ _ (os3dSmoothBody_checked_eq (os3dSetup x y z)),
      Option.map_some']
  · rw [RE_NOISE_OS2D_FAST_f32_checked, RE_NOISE_OS2D_FAST_f32]
    rw [foldlM_option_eq_foldl _ _ (os2dFastBody_checked_eq _ _ _ _), Option.map_some']
